import Mathlib

/-!
Verification of the MathComps embedding service core
(`src/backend/services/embedding-service/embedding_model.py` and
`src/backend/services/embedding-service/app.py`), shallowly embedded in Lean.

The underlying sentence-transformers model is external to the repository; it
is modelled as an abstract state carrying an `encode` function that may fail
(Python exceptions become `Except.error` carrying the exception's string).
Vector components are modelled as rationals; all repository-side processing
(role prefixing, list conversion, error wrapping) is value-preserving, so the
choice of numeric carrier does not affect any claim.
-/

/-- Abstract stand-in for the external `SentenceTransformer` instance.
`encode texts batch_size normalize` models
`self.model.encode(processed_texts, batch_size=..., normalize_embeddings=...,
show_progress_bar=False, convert_to_numpy=True)` followed by `.tolist()`:
it returns the list of embedding vectors, or the message of a raised
exception. -/
structure SentenceTransformer where
  encode : List String → Nat → Bool → Except String (List (List ℚ))

/-- Embeds the `EmbeddingModel` wrapper state of `embedding_model.py`:
the configured model name and the optional loaded model
(`self.model : Optional[SentenceTransformer]`). -/
structure EmbeddingModel where
  model_name : String
  model : Option SentenceTransformer

/-- The default `model_name` of `EmbeddingModel.__init__`, also the hardcoded
`model_name` string in the `/health` handler of `app.py`. -/
def defaultModelName : String := "intfloat/multilingual-e5-base"

/-- Embeds `EmbeddingModel.is_ready`: true iff `self.model is not None`. -/
def EmbeddingModel.is_ready (m : EmbeddingModel) : Bool :=
  m.model.isSome

/-- Embeds `EmbeddingModel._apply_role_prefix` (the name is pluralised here).
Python's `if not role:` is a truthiness test, so both `None` and the empty
string pass the texts through unchanged; a role outside
`["passage", "query"]` is ignored with a warning; otherwise each text gets
`f"{role}: "` prepended. -/
def apply_role_prefixes (texts : List String) (role : Option String) : List String :=
  match role with
  | none => texts
  | some r =>
    if r = "" then texts
    else if r ∉ (["passage", "query"] : List String) then texts
    else texts.map (fun text => (r ++ ": ") ++ text)

/-- Embeds `EmbeddingModel.generate_embeddings`. Mirrors the source order exactly:
the readiness check (`raise ValueError`) comes first, then the empty-input
short-circuit, then prefixing and encoding inside `try`, with any encode
exception re-raised as `RuntimeError(f"Embedding generation failed: {str(e)}")`.
`.tolist()` is the identity in this model. -/
def EmbeddingModel.generate_embeddings (m : EmbeddingModel) (texts : List String)
    (role : Option String) (batch_size : Nat) (normalize : Bool) :
    Except String (List (List ℚ)) :=
  match m.model with
  | none => Except.error "Model not loaded. Call _load_model() first."
  | some st =>
    if texts = [] then Except.ok []
    else
      match st.encode (apply_role_prefixes texts role) batch_size normalize with
      | Except.ok embeddings => Except.ok embeddings
      | Except.error e => Except.error ("Embedding generation failed: " ++ e)

/-- Embeds `EmbeddingModel.generate_single_embedding`: delegates to the batch
operation on `[text]` (with the default `batch_size=32`) and returns
`result[0] if result else []`. -/
def EmbeddingModel.generate_single_embedding (m : EmbeddingModel) (text : String)
    (role : Option String) (normalize : Bool) : Except String (List ℚ) :=
  match m.generate_embeddings [text] role 32 normalize with
  | Except.error e => Except.error e
  | Except.ok result => Except.ok (result.headD [])

/-- Embeds `EmbedRequest` of `app.py`: a list of texts and an optional role.
The pydantic schema declares `texts: List[str] = Field(..., min_items=1)`. -/
structure EmbedRequest where
  texts : List String
  role : Option String

/-- The pydantic validation constraint on `EmbedRequest`: `min_items=1`
requires at least one element in `texts`. A request value only reaches the
handler if this holds. -/
def EmbedRequest.schema_valid (r : EmbedRequest) : Bool :=
  1 ≤ r.texts.length

/-- Embeds `EmbedResponse` of `app.py`. -/
structure EmbedResponse where
  vectors : List (List ℚ)
deriving DecidableEq

/-- Outcome of a FastAPI handler call: a successful response body, or a
raised `HTTPException(status_code, detail)`. -/
inductive EmbedResult where
  | ok (response : EmbedResponse)
  | httpError (status_code : Nat) (detail : String)
deriving DecidableEq

/-- The message of the `AttributeError` the Python runtime raises when
`embedding_model` is `None` and `.generate_embeddings` is accessed inside the
handler's `try` block. Its exact text is produced by the Python runtime, not
by repository code; only the fact that it is caught and wrapped matters. -/
def noneTypeMessage : String := "NoneType object has no attribute generate_embeddings"

/-- The `POST /embed` handler `embed_texts` of `app.py`: raises 400 when
`request.texts` is empty; otherwise calls
`embedding_model.generate_embeddings(texts=request.texts, role=request.role)`
(defaults `batch_size=32`, `normalize=True`) and wraps any exception as a 500
with `f"Embedding generation failed: {str(e)}"`. When the global
`embedding_model` is `None`, the attribute access raises inside the `try`
and is likewise wrapped as a 500. -/
def embed_texts (embedding_model : Option EmbeddingModel) (request : EmbedRequest) :
    EmbedResult :=
  if request.texts = [] then
    EmbedResult.httpError 400 "texts list cannot be empty"
  else
    match embedding_model with
    | none =>
      EmbedResult.httpError 500 ("Embedding generation failed: " ++ noneTypeMessage)
    | some m =>
      match m.generate_embeddings request.texts request.role 32 true with
      | Except.ok vectors => EmbedResult.ok ⟨vectors⟩
      | Except.error e =>
        EmbedResult.httpError 500 ("Embedding generation failed: " ++ e)

/-- Response body of `GET /health`. -/
structure HealthResponse where
  status : String
  model_loaded : Bool
  model_name : String
deriving DecidableEq

/-- The `GET /health` handler `health_check` of `app.py`: a total function —
it always produces a response.
`model_ready = embedding_model is not None and embedding_model.is_ready()`. -/
def health_check (embedding_model : Option EmbeddingModel) : HealthResponse :=
  let model_ready :=
    match embedding_model with
    | none => false
    | some m => m.is_ready
  { status := if model_ready then "healthy" else "unhealthy"
    model_loaded := model_ready
    model_name := "intfloat/multilingual-e5-base" }

theorem apply_role_prefixes_none (texts : List String) :
    apply_role_prefixes texts none = texts := rfl

theorem apply_role_prefixes_known (texts : List String) (r : String)
    (h : r = "passage" ∨ r = "query") :
    apply_role_prefixes texts (some r) = texts.map (fun text => (r ++ ": ") ++ text) := by
  have hne : r ≠ "" := by rcases h with h | h <;> simp [h]
  have hmem : r ∈ (["passage", "query"] : List String) := by
    rcases h with h | h <;> simp [h]
  simp [apply_role_prefixes, hne, hmem]

theorem apply_role_prefixes_unknown (texts : List String) (r : String)
    (h1 : r ≠ "passage") (h2 : r ≠ "query") :
    apply_role_prefixes texts (some r) = texts := by
  by_cases he : r = ""
  · subst he; rfl
  · have : r ∉ (["passage", "query"] : List String) := by simp [h1, h2]
    simp [apply_role_prefixes, he, this]

theorem apply_role_prefixes_length (texts : List String) (role : Option String) :
    (apply_role_prefixes texts role).length = texts.length := by
  cases role with
  | none => rfl
  | some r =>
    by_cases hp : r = "passage"
    · subst hp; rw [apply_role_prefixes_known texts "passage" (Or.inl rfl)]; simp
    · by_cases hq : r = "query"
      · subst hq; rw [apply_role_prefixes_known texts "query" (Or.inr rfl)]; simp
      · rw [apply_role_prefixes_unknown texts r hp hq]

/-- Claim C1: role prefixing is exact. With role unset the texts pass through
unchanged; with role "passage" or "query" every text in the result is exactly
the string `role ++ ": "` concatenated with the original text, in the same
order (the result is the positional map of that prefixing function). -/
theorem role_prefixing_exact (texts : List String) :
    apply_role_prefixes texts none = texts ∧
    ∀ r : String, r = "passage" ∨ r = "query" →
      apply_role_prefixes texts (some r) = texts.map (fun text => r ++ ": " ++ text) := by
  refine ⟨apply_role_prefixes_none texts, ?_⟩
  intro r hr
  rw [apply_role_prefixes_known texts r hr]

/-- Witness for C1 at a concrete input: the spec's own example,
role "passage" on "Hello world" yields "passage: Hello world". -/
theorem role_prefixing_exact_witness :
    apply_role_prefixes ["Hello world"] none = ["Hello world"] ∧
    apply_role_prefixes ["Hello world"] (some "passage") = ["passage: Hello world"] := by
  have h := role_prefixing_exact ["Hello world"]
  refine ⟨h.1, ?_⟩
  rw [h.2 "passage" (Or.inl rfl)]
  rfl


/-- An example loaded transformer: its encode returns one vector `[1]` per
input text and never raises. Used only to instantiate theorems at concrete
inputs. -/
def constTransformer : SentenceTransformer :=
  ⟨fun ts _ _ => Except.ok (ts.map (fun _ => ([1] : List ℚ)))⟩

/-- An example model state with `constTransformer` loaded. -/
def constModel : EmbeddingModel := ⟨defaultModelName, some constTransformer⟩

/-- An example transformer whose encode always raises. -/
def failingTransformer : SentenceTransformer := ⟨fun _ _ _ => Except.error "boom"⟩

/-- An example model state with `failingTransformer` loaded. -/
def failingModel : EmbeddingModel := ⟨defaultModelName, some failingTransformer⟩

/-- An example model state whose model is not loaded. -/
def unloadedModel : EmbeddingModel := ⟨defaultModelName, none⟩

/-- Counterexample to claim C4 as stated: in `generate_embeddings` the
readiness check precedes the empty-input short-circuit, so with the model not
loaded an empty texts sequence raises `ValueError` instead of returning an
empty sequence. -/
theorem generate_embeddings_empty_unloaded_raises :
    EmbeddingModel.generate_embeddings unloadedModel [] none 32 true
      = Except.error "Model not loaded. Call _load_model() first." := rfl

/-- Claim C4 (amended): when the model is loaded, `generate_embeddings` on an
empty texts sequence returns the empty sequence with no error and without
invoking the model — the result is `ok []` for every loaded transformer,
including one whose encode always raises, so the encode function is never
consulted. -/
theorem generate_embeddings_empty_input (m : EmbeddingModel)
    (h : m.is_ready = true) (role : Option String) (batch_size : Nat)
    (normalize : Bool) :
    m.generate_embeddings [] role batch_size normalize = Except.ok [] := by
  rcases m with ⟨name, model⟩
  cases model with
  | none => simp [EmbeddingModel.is_ready] at h
  | some st => rfl

/-- Witness for C4 (amended) at a concrete input: the loaded model whose
encode always raises still returns `ok []` on empty input. -/
theorem generate_embeddings_empty_input_witness :
    failingModel.is_ready = true ∧
    failingModel.generate_embeddings [] none 32 true = Except.ok [] :=
  ⟨rfl, generate_embeddings_empty_input failingModel rfl none 32 true⟩

/-- Claim C5: a role outside passage/query/unset is ignored, not rejected —
`generate_embeddings` with such a role produces output identical to the call
with role unset, for every model state, text list, batch size and normalize
flag. -/
theorem unrecognized_role_ignored (m : EmbeddingModel) (texts : List String)
    (r : String) (h1 : r ≠ "passage") (h2 : r ≠ "query")
    (batch_size : Nat) (normalize : Bool) :
    m.generate_embeddings texts (some r) batch_size normalize
      = m.generate_embeddings texts none batch_size normalize := by
  rcases m with ⟨name, model⟩
  cases model with
  | none => rfl
  | some st =>
    simp only [EmbeddingModel.generate_embeddings,
      apply_role_prefixes_unknown texts r h1 h2, apply_role_prefixes_none]

/-- Witness for C5 at a concrete input: role "bogus" on one text gives the
same output as role unset. -/
theorem unrecognized_role_ignored_witness :
    ("bogus" ≠ "passage" ∧ "bogus" ≠ "query") ∧
    constModel.generate_embeddings ["Hello"] (some "bogus") 32 true
      = constModel.generate_embeddings ["Hello"] none 32 true :=
  ⟨⟨by decide, by decide⟩,
   unrecognized_role_ignored constModel ["Hello"] "bogus" (by decide) (by decide) 32 true⟩

/-- Claim C6: `generate_embeddings` fails when the model is not loaded, and
fails when the underlying encode raises, with the original cause's message
attached to the error; and the call is all-or-nothing — a failure returns an
error value carrying no vectors, and a success returns exactly the full
vector list produced by the encode call. -/
theorem generate_embeddings_failure_contract (m : EmbeddingModel)
    (texts : List String) (role : Option String) (batch_size : Nat)
    (normalize : Bool) :
    (m.is_ready = false →
      m.generate_embeddings texts role batch_size normalize
        = Except.error "Model not loaded. Call _load_model() first.")
    ∧ (∀ st, m.model = some st → texts ≠ [] → ∀ e,
        st.encode (apply_role_prefixes texts role) batch_size normalize
          = Except.error e →
        m.generate_embeddings texts role batch_size normalize
          = Except.error ("Embedding generation failed: " ++ e))
    ∧ (∀ st, m.model = some st → texts ≠ [] → ∀ vs,
        st.encode (apply_role_prefixes texts role) batch_size normalize
          = Except.ok vs →
        m.generate_embeddings texts role batch_size normalize = Except.ok vs) := by
  rcases m with ⟨name, model⟩
  cases model with
  | none =>
    refine ⟨fun _ => rfl, ?_, ?_⟩ <;> intro st hst <;> exact absurd hst (by simp)
  | some st =>
    refine ⟨?_, ?_, ?_⟩
    · intro h; simp [EmbeddingModel.is_ready] at h
    · intro st' hst' hne e henc
      injection hst' with hst'
      subst hst'
      simp only [EmbeddingModel.generate_embeddings]
      rw [if_neg hne, henc]
    · intro st' hst' hne vs henc
      injection hst' with hst'
      subst hst'
      simp only [EmbeddingModel.generate_embeddings]
      rw [if_neg hne, henc]

/-- Witness for C6 at concrete inputs: the unloaded model errors; the model
with a raising encode errors with the cause "boom" attached; the model with a
total encode returns the full vector list. -/
theorem generate_embeddings_failure_contract_witness :
    unloadedModel.generate_embeddings ["x"] none 32 true
      = Except.error "Model not loaded. Call _load_model() first."
    ∧ failingModel.generate_embeddings ["x"] none 32 true
      = Except.error ("Embedding generation failed: " ++ "boom")
    ∧ constModel.generate_embeddings ["x"] none 32 true = Except.ok [[1]] :=
  ⟨(generate_embeddings_failure_contract unloadedModel ["x"] none 32 true).1 rfl,
   (generate_embeddings_failure_contract failingModel ["x"] none 32 true).2.1
     failingTransformer rfl (by decide) "boom" rfl,
   (generate_embeddings_failure_contract constModel ["x"] none 32 true).2.2
     constTransformer rfl (by decide) [[1]] rfl⟩

/-- Claim C8: `generate_single_embedding` is the batch operation on the
single-element list — it propagates any batch error unchanged, returns the
sole vector when the batch yields one vector, and returns the empty vector
when the batch yields an empty sequence. -/
theorem generate_single_embedding_equiv (m : EmbeddingModel) (text : String)
    (role : Option String) (normalize : Bool) :
    (∀ e, m.generate_embeddings [text] role 32 normalize = Except.error e →
        m.generate_single_embedding text role normalize = Except.error e)
    ∧ (∀ v, m.generate_embeddings [text] role 32 normalize = Except.ok [v] →
        m.generate_single_embedding text role normalize = Except.ok v)
    ∧ (m.generate_embeddings [text] role 32 normalize = Except.ok [] →
        m.generate_single_embedding text role normalize = Except.ok []) := by
  refine ⟨?_, ?_, ?_⟩
  · intro e h
    simp only [EmbeddingModel.generate_single_embedding]
    rw [h]
  · intro v h
    simp only [EmbeddingModel.generate_single_embedding]
    rw [h]
    rfl
  · intro h
    simp only [EmbeddingModel.generate_single_embedding]
    rw [h]
    rfl

/-- Witness for C8 at a concrete input: on the example loaded model the
batch call on one text yields one vector and the single call returns it. -/
theorem generate_single_embedding_equiv_witness :
    constModel.generate_embeddings ["Hello"] none 32 true = Except.ok [[1]]
    ∧ constModel.generate_single_embedding "Hello" none true = Except.ok [1] :=
  ⟨rfl, (generate_single_embedding_equiv constModel "Hello" none true).2.1 [1] rfl⟩

theorem generate_embeddings_ok_of_encode_ok (name : String)
    (st : SentenceTransformer) (texts : List String) (role : Option String)
    (batch_size : Nat) (normalize : Bool) (hne : texts ≠ [])
    (vs : List (List ℚ))
    (henc : st.encode (apply_role_prefixes texts role) batch_size normalize
      = Except.ok vs) :
    EmbeddingModel.generate_embeddings ⟨name, some st⟩ texts role batch_size normalize
      = Except.ok vs := by
  simp [EmbeddingModel.generate_embeddings, hne, henc]

theorem embed_texts_ok_of_gen_ok (m : EmbeddingModel) (request : EmbedRequest)
    (hne : request.texts ≠ []) (vs : List (List ℚ))
    (hgen : m.generate_embeddings request.texts request.role 32 true = Except.ok vs) :
    embed_texts (some m) request = EmbedResult.ok ⟨vs⟩ := by
  simp [embed_texts, hne, hgen]

theorem embed_texts_nonempty_shape (em : Option EmbeddingModel)
    (request : EmbedRequest) (hne : request.texts ≠ []) :
    (∃ response, embed_texts em request = EmbedResult.ok response)
    ∨ (∃ d, embed_texts em request = EmbedResult.httpError 500 d) := by
  cases em with
  | none =>
    exact Or.inr ⟨"Embedding generation failed: " ++ noneTypeMessage,
      by simp [embed_texts, hne]⟩
  | some m =>
    cases hgen : m.generate_embeddings request.texts request.role 32 true with
    | ok vs => exact Or.inl ⟨⟨vs⟩, by simp [embed_texts, hne, hgen]⟩
    | error e =>
      exact Or.inr ⟨"Embedding generation failed: " ++ e,
        by simp [embed_texts, hne, hgen]⟩

/-- Claim C2: for every non-empty request whose encode succeeds (the external
model's contract: one embedding per input text, positionally), the handler
returns a success whose vectors are exactly the image of the role-prefixed
input texts — hence one vector per input text, and the vector at index i is
the embedding of the i-th (prefixed) input text, so output order matches
input order. -/
theorem embed_success_one_vector_per_text (f : String → List ℚ)
    (st : SentenceTransformer)
    (henc : ∀ ts batch_size normalize,
      st.encode ts batch_size normalize = Except.ok (ts.map f))
    (name : String) (request : EmbedRequest) (hne : request.texts ≠ []) :
    ∃ vectors,
      embed_texts (some ⟨name, some st⟩) request = EmbedResult.ok ⟨vectors⟩
      ∧ vectors = (apply_role_prefixes request.texts request.role).map f
      ∧ vectors.length = request.texts.length
      ∧ ∀ i (hi : i < vectors.length)
          (hi' : i < (apply_role_prefixes request.texts request.role).length),
          vectors.get ⟨i, hi⟩
            = f ((apply_role_prefixes request.texts request.role).get ⟨i, hi'⟩) := by
  refine ⟨(apply_role_prefixes request.texts request.role).map f, ?_, rfl, ?_, ?_⟩
  · exact embed_texts_ok_of_gen_ok ⟨name, some st⟩ request hne _
      (generate_embeddings_ok_of_encode_ok name st request.texts request.role
        32 true hne _ (henc _ 32 true))
  · rw [List.length_map, apply_role_prefixes_length]
  · intro i hi hi'
    simp

/-- Witness for C2 at a concrete input: the spec's scenario request with two
texts and role "passage" yields exactly two vectors, in order. -/
theorem embed_success_one_vector_per_text_witness :
    (["Hello world", "This is a test problem"] : List String) ≠ []
    ∧ embed_texts (some ⟨defaultModelName, some constTransformer⟩)
        ⟨["Hello world", "This is a test problem"], some "passage"⟩
      = EmbedResult.ok ⟨[[1], [1]]⟩ := by
  refine ⟨by decide, ?_⟩
  obtain ⟨vs, h1, h2, -, -⟩ :=
    embed_success_one_vector_per_text (fun _ => ([1] : List ℚ)) constTransformer
      (fun ts bs nm => rfl) defaultModelName
      ⟨["Hello world", "This is a test problem"], some "passage"⟩ (by decide)
  rw [h1, h2]
  rfl

/-- Claim C3: the embed handler returns the 400 error exactly when the
request's texts list is empty; for a non-empty list it returns a 500 error
carrying a human-readable message when generation fails (model missing or
generation error), and otherwise a success carrying the vectors. -/
theorem embed_texts_error_contract (em : Option EmbeddingModel)
    (request : EmbedRequest) :
    (request.texts = [] →
      embed_texts em request = EmbedResult.httpError 400 "texts list cannot be empty")
    ∧ ((∃ s d, embed_texts em request = EmbedResult.httpError s d ∧ 400 ≤ s ∧ s < 500)
        ↔ request.texts = [])
    ∧ (request.texts ≠ [] → em = none →
        embed_texts em request
          = EmbedResult.httpError 500 ("Embedding generation failed: " ++ noneTypeMessage))
    ∧ (request.texts ≠ [] → ∀ m, em = some m → ∀ e,
        m.generate_embeddings request.texts request.role 32 true = Except.error e →
        embed_texts em request
          = EmbedResult.httpError 500 ("Embedding generation failed: " ++ e))
    ∧ (request.texts ≠ [] → ∀ m, em = some m → ∀ vectors,
        m.generate_embeddings request.texts request.role 32 true = Except.ok vectors →
        embed_texts em request = EmbedResult.ok ⟨vectors⟩) := by
  refine ⟨?_, ⟨?_, ?_⟩, ?_, ?_, ?_⟩
  · intro h
    simp [embed_texts, h]
  · rintro ⟨s, d, hres, hs4, hs5⟩
    by_contra hne
    rcases embed_texts_nonempty_shape em request hne with ⟨resp, hr⟩ | ⟨d', hr⟩
    · rw [hres] at hr
      exact EmbedResult.noConfusion hr
    · rw [hres] at hr
      injection hr with h1 h2
      subst h1
      exact absurd hs5 (by norm_num)
  · intro h
    exact ⟨400, "texts list cannot be empty", by simp [embed_texts, h], by norm_num,
      by norm_num⟩
  · intro hne hnone
    subst hnone
    simp [embed_texts, hne]
  · intro hne m hm e hgen
    subst hm
    simp [embed_texts, hne, hgen]
  · intro hne m hm vectors hgen
    subst hm
    exact embed_texts_ok_of_gen_ok m request hne vectors hgen

/-- Witness for C3 at concrete inputs: empty texts give the 400 error; a
missing model and a raising encode give 500 errors carrying messages; a
successful generation gives the success with the vectors. -/
theorem embed_texts_error_contract_witness :
    embed_texts (some constModel) ⟨[], none⟩
      = EmbedResult.httpError 400 "texts list cannot be empty"
    ∧ embed_texts none ⟨["x"], none⟩
      = EmbedResult.httpError 500 ("Embedding generation failed: " ++ noneTypeMessage)
    ∧ embed_texts (some failingModel) ⟨["x"], none⟩
      = EmbedResult.httpError 500
          ("Embedding generation failed: " ++ ("Embedding generation failed: " ++ "boom"))
    ∧ embed_texts (some constModel) ⟨["x"], none⟩ = EmbedResult.ok ⟨[[1]]⟩ :=
  ⟨(embed_texts_error_contract (some constModel) ⟨[], none⟩).1 rfl,
   (embed_texts_error_contract none ⟨["x"], none⟩).2.2.1 (by decide) rfl,
   (embed_texts_error_contract (some failingModel) ⟨["x"], none⟩).2.2.2.1
     (by decide) failingModel rfl ("Embedding generation failed: " ++ "boom") rfl,
   (embed_texts_error_contract (some constModel) ⟨["x"], none⟩).2.2.2.2
     (by decide) constModel rfl [[1]] rfl⟩

/-- Claim C7: the health operation is a total function (it always returns a
response and can raise no error — its codomain is `HealthResponse`, not an
error type); its status is "healthy" iff a model instance exists and reports
itself ready, and otherwise "unhealthy"; its `model_loaded` field is that
same readiness boolean; and its `model_name` field is the configured model
identifier (the handler hardcodes the default identifier, which equals the
configured one for every state the app constructs, expressed by the
hypothesis). -/
theorem health_check_contract (em : Option EmbeddingModel)
    (hconf : ∀ m, em = some m → m.model_name = defaultModelName) :
    ((health_check em).status = "healthy" ↔ ∃ m, em = some m ∧ m.is_ready = true)
    ∧ ((health_check em).status = "healthy" ∨ (health_check em).status = "unhealthy")
    ∧ ((health_check em).model_loaded = true ↔ ∃ m, em = some m ∧ m.is_ready = true)
    ∧ (health_check em).model_name = defaultModelName
    ∧ (∀ m, em = some m → (health_check em).model_name = m.model_name) := by
  cases em with
  | none =>
    refine ⟨⟨fun h => absurd h (by decide), ?_⟩, Or.inr rfl,
      ⟨fun h => absurd h (by decide), ?_⟩, rfl, ?_⟩
    · rintro ⟨m, hm, -⟩
      exact Option.noConfusion hm
    · rintro ⟨m, hm, -⟩
      exact Option.noConfusion hm
    · intro m hm
      exact Option.noConfusion hm
  | some m =>
    have hname : (health_check (some m)).model_name = defaultModelName := rfl
    cases hb : m.is_ready with
    | false =>
      refine ⟨⟨?_, ?_⟩, ?_, ⟨?_, ?_⟩, hname, ?_⟩
      · intro h
        simp [health_check, hb] at h
      · rintro ⟨m', hm', hr⟩
        injection hm' with hm'
        subst hm'
        rw [hb] at hr
        exact Bool.noConfusion hr
      · right
        simp [health_check, hb]
      · intro h
        simp [health_check, hb] at h
      · rintro ⟨m', hm', hr⟩
        injection hm' with hm'
        subst hm'
        rw [hb] at hr
        exact Bool.noConfusion hr
      · intro m' hm'
        injection hm' with hm'
        subst hm'
        exact (hconf m rfl).symm ▸ hname
    | true =>
      refine ⟨⟨fun _ => ⟨m, rfl, hb⟩, fun _ => ?_⟩, ?_, ⟨fun _ => ⟨m, rfl, hb⟩, fun _ => ?_⟩,
        hname, ?_⟩
      · simp [health_check, hb]
      · left
        simp [health_check, hb]
      · simp [health_check, hb]
      · intro m' hm'
        injection hm' with hm'
        subst hm'
        exact (hconf m rfl).symm ▸ hname

/-- Witness for C7 at a concrete input: with the example loaded model the
health response is healthy, reports the model loaded, and carries the
configured model identifier. -/
theorem health_check_contract_witness :
    (health_check (some constModel)).status = "healthy"
    ∧ (health_check (some constModel)).model_loaded = true
    ∧ (health_check (some constModel)).model_name = defaultModelName := by
  have h := health_check_contract (some constModel)
    (fun m hm => by cases hm; rfl)
  exact ⟨h.1.mpr ⟨constModel, rfl, rfl⟩, h.2.2.1.mpr ⟨constModel, rfl, rfl⟩, h.2.2.2.1⟩

/-- Sum of squares of a vector's components: over the rational model, a
vector has Euclidean norm one exactly when its sum of squares is one (the
spec's floating-point tolerance becomes exactness in this model). -/
def sumSq (v : List ℚ) : ℚ :=
  (v.map (fun x => x * x)).sum

/-- Claim C9: when normalize is true, every vector returned by
`generate_embeddings` has unit Euclidean norm. The normalization itself is
performed by the external encode (`normalize_embeddings=True`), stated here
as its contract hypothesis; the theorem verifies that the repository pipeline
returns those vectors unchanged, so the unit-norm property carries to every
vector of the result. -/
theorem normalized_vectors_unit_norm (m : EmbeddingModel)
    (st : SentenceTransformer) (hm : m.model = some st)
    (hcontract : ∀ ts batch_size vs,
      st.encode ts batch_size true = Except.ok vs → ∀ v ∈ vs, sumSq v = 1)
    (texts : List String) (role : Option String) (batch_size : Nat)
    (vectors : List (List ℚ))
    (hres : m.generate_embeddings texts role batch_size true = Except.ok vectors) :
    ∀ v ∈ vectors, sumSq v = 1 := by
  simp only [EmbeddingModel.generate_embeddings, hm] at hres
  by_cases hemp : texts = []
  · rw [if_pos hemp] at hres
    injection hres with hres
    subst hres
    intro v hv
    cases hv
  · rw [if_neg hemp] at hres
    cases henc : st.encode (apply_role_prefixes texts role) batch_size true with
    | ok vs =>
      rw [henc] at hres
      injection hres with hres
      subst hres
      exact hcontract _ _ vs henc
    | error e =>
      rw [henc] at hres
      exact Except.noConfusion hres

/-- Witness for C9 at a concrete input: the example transformer returns the
unit vector for each text and the returned vector has unit sum of squares. -/
theorem normalized_vectors_unit_norm_witness :
    constModel.generate_embeddings ["Hello world"] (some "passage") 32 true
      = Except.ok [[1]]
    ∧ sumSq [1] = 1 := by
  have hc : ∀ ts batch_size vs,
      constTransformer.encode ts batch_size true = Except.ok vs →
      ∀ v ∈ vs, sumSq v = 1 := by
    intro ts bs vs h v hv
    injection h with h
    subst h
    rcases List.mem_map.mp hv with ⟨a, -, rfl⟩
    norm_num [sumSq]
  refine ⟨rfl, ?_⟩
  exact normalized_vectors_unit_norm constModel constTransformer rfl hc
    ["Hello world"] (some "passage") 32 [[1]] rfl [1] (by decide)

/-- Claim C10: every request value satisfying the pydantic schema constraint
(`min_items=1`) has a non-empty texts list, so the handler's explicit
empty-texts 400 branch is unreachable for validated requests — any error the
handler returns for such a request has status 500. -/
theorem validated_request_escapes_400 (request : EmbedRequest)
    (hvalid : request.schema_valid = true) (em : Option EmbeddingModel) :
    request.texts ≠ []
    ∧ ∀ s d, embed_texts em request = EmbedResult.httpError s d → s = 500 := by
  have hlen : 1 ≤ request.texts.length := of_decide_eq_true hvalid
  have hne : request.texts ≠ [] := by
    intro h
    rw [h] at hlen
    exact absurd hlen (by decide)
  refine ⟨hne, ?_⟩
  intro s d h
  rcases embed_texts_nonempty_shape em request hne with ⟨resp, hr⟩ | ⟨d', hr⟩
  · rw [h] at hr
    exact EmbedResult.noConfusion hr
  · rw [h] at hr
    simp only [EmbedResult.httpError.injEq] at hr
    exact hr.1

/-- Witness for C10 at a concrete input: a schema-valid one-element request
has non-empty texts, and even with no model loaded the handler's error for it
is a 500, not a 400. -/
theorem validated_request_escapes_400_witness :
    EmbedRequest.schema_valid ⟨["x"], none⟩ = true
    ∧ (["x"] : List String) ≠ [] :=
  ⟨rfl, (validated_request_escapes_400 ⟨["x"], none⟩ rfl none).1⟩
